import Mathlib

/-!
Shallow embedding of the Poly-Mach trading bot core (rust-bot), covering the
pieces exercised by the verified properties below: the circuit breaker, Kelly
position sizer, exposure monitor and risk manager (src/risk), the state store
(src/state/state_manager.rs), the order-book tracker with the completeness-arb
scanner (src/data/orderbook.rs), the paper executor (src/execution/paper.rs),
the market-maker stop-loss (src/strategies/market_maker.rs) and the REST
client retry loop (src/api/client.rs).

Conventions: rust_decimal Decimal values are embedded as exact rationals
(Money := Rat); i64 quantities as Int; HashMap as association lists with
insert-replaces-and-removes semantics; log-only data (formatted reason
strings, timestamps, tracing output) is either kept as the static part of the
message or dropped when nothing observable depends on it.
-/

namespace PolyMach

/-- Money: exact-rational embedding of rust_decimal Decimal. -/
abbrev Money := ℚ

/-- Contract side of a binary market (data/models.rs, Side). -/
inductive Side where
  | yes
  | no
deriving DecidableEq, Repr

/-- Display form of a side, as used in position keys (models.rs, impl Display for Side). -/
def Side.str : Side → String
  | .yes => "YES"
  | .no => "NO"

/-- Order intent (models.rs, OrderIntent). -/
inductive OrderIntent where
  | buyLong
  | sellLong
  | buyShort
  | sellShort
deriving DecidableEq, Repr

def OrderIntent.is_buy : OrderIntent → Bool
  | .buyLong | .buyShort => true
  | _ => false

def OrderIntent.is_sell : OrderIntent → Bool
  | .sellLong | .sellShort => true
  | _ => false

def OrderIntent.side : OrderIntent → Side
  | .buyLong | .sellLong => .yes
  | .buyShort | .sellShort => .no

/-- Order status (models.rs, OrderStatus). -/
inductive OrderStatus where
  | pending
  | open
  | partiallyFilled
  | filled
  | cancelled
  | rejected
deriving DecidableEq, Repr

def OrderStatus.is_open : OrderStatus → Bool
  | .pending | .open | .partiallyFilled => true
  | _ => false

def OrderStatus.is_terminal : OrderStatus → Bool
  | .filled | .cancelled | .rejected => true
  | _ => false

/-- Signal action (models.rs, SignalAction). -/
inductive SignalAction where
  | buyYes
  | sellYes
  | buyNo
  | sellNo
  | cancelAll
deriving DecidableEq, Repr

def SignalAction.is_buy : SignalAction → Bool
  | .buyYes | .buyNo => true
  | _ => false

def SignalAction.is_sell : SignalAction → Bool
  | .sellYes | .sellNo => true
  | _ => false

def SignalAction.is_cancel : SignalAction → Bool
  | .cancelAll => true
  | _ => false

def SignalAction.to_intent : SignalAction → Option OrderIntent
  | .buyYes => some .buyLong
  | .sellYes => some .sellLong
  | .buyNo => some .buyShort
  | .sellNo => some .sellShort
  | .cancelAll => none

/-- Urgency (models.rs, Urgency), ordered Low < Medium < High < Critical. -/
inductive Urgency where
  | low
  | medium
  | high
  | critical
deriving DecidableEq, Repr

/-- Strategy signal (models.rs, Signal).  The metadata map is embedded by the
one key the risk pipeline reads: true_probability (an Option).  Log-only
fields (strategy_name, reason, timestamp) are dropped; confidence (f64 in the
source) is embedded as a rational. -/
structure Signal where
  market_slug : String
  action : SignalAction
  price : Money
  quantity : Int
  urgency : Urgency
  confidence : Money
  true_probability : Option Money
deriving DecidableEq, Repr

/-- models.rs, Signal::notional. -/
def Signal.notional (s : Signal) : Money := s.price * s.quantity

-- ===========================================================================
-- Association-list embedding of std HashMap (deterministic iteration order).
-- ===========================================================================

def mapGet {β : Type} (m : List (String × β)) (k : String) : Option β :=
  List.lookup k m

def mapInsert {β : Type} (k : String) (v : β) (m : List (String × β)) : List (String × β) :=
  (k, v) :: m.filter (fun e => e.1 ≠ k)

def mapRemove {β : Type} (k : String) (m : List (String × β)) : List (String × β) :=
  m.filter (fun e => e.1 ≠ k)

-- ===========================================================================
-- State store (state/state_manager.rs)
-- ===========================================================================

/-- state_manager.rs, MarketState (timestamp dropped). -/
structure MarketState where
  market_slug : String
  title : String
  yes_bid : Option Money
  yes_ask : Option Money
  no_bid : Option Money
  no_ask : Option Money
deriving DecidableEq, Repr

def MarketState.yes_mid_price (m : MarketState) : Option Money :=
  match m.yes_bid, m.yes_ask with
  | some bid, some ask => some ((bid + ask) / 2)
  | _, _ => none

def MarketState.has_valid_prices (m : MarketState) : Bool :=
  match m.yes_bid, m.yes_ask with
  | some bid, some ask => decide (bid > 0 ∧ ask > 0 ∧ bid < ask)
  | _, _ => false

/-- state_manager.rs, PositionState (created_at timestamp dropped; the
market-maker stop-loss takes the position age as an explicit argument). -/
structure PositionState where
  market_slug : String
  side : Side
  quantity : Int
  avg_price : Money
deriving DecidableEq, Repr

def PositionState.cost_basis (p : PositionState) : Money :=
  p.avg_price * p.quantity

/-- state_manager.rs, OrderState. -/
structure OrderState where
  order_id : String
  market_slug : String
  intent : OrderIntent
  price : Money
  quantity : Int
  filled_quantity : Int
  status : OrderStatus
deriving DecidableEq, Repr

/-- state_manager.rs, Inner: the contents guarded by the StateManager lock. -/
structure BotState where
  balance : Money
  markets : List (String × MarketState)
  positions : List (String × PositionState)
  orders : List (String × OrderState)
deriving DecidableEq, Repr

/-- state_manager.rs, position_key: slug:YES or slug:NO. -/
def position_key (market_slug : String) (side : Side) : String :=
  market_slug ++ ":" ++ side.str

/-- state_manager.rs, mark_to_market: current bid on the held side when
available, else cost basis. -/
def mark_to_market (p : PositionState) (markets : List (String × MarketState)) : Money :=
  match mapGet markets p.market_slug with
  | some market =>
    let current_price := match p.side with
      | .yes => market.yes_bid
      | .no => market.no_bid
    match current_price with
    | some price => price * p.quantity
    | none => p.cost_basis
  | none => p.cost_basis

def get_balance (st : BotState) : Money := st.balance

def update_balance (st : BotState) (balance : Money) : BotState :=
  { st with balance }

/-- state_manager.rs, get_total_equity. -/
def get_total_equity (st : BotState) : Money :=
  st.balance + (st.positions.map (fun e => mark_to_market e.2 st.markets)).sum

/-- state_manager.rs, get_total_position_value. -/
def get_total_position_value (st : BotState) : Money :=
  (st.positions.map (fun e => mark_to_market e.2 st.markets)).sum

/-- state_manager.rs, update_position: removes at quantity ≤ 0, else upserts. -/
def update_position (st : BotState) (market_slug : String) (side : Side)
    (quantity : Int) (avg_price : Money) : BotState :=
  let key := position_key market_slug side
  if quantity ≤ 0 then
    { st with positions := mapRemove key st.positions }
  else
    let entry : PositionState := { market_slug, side, quantity, avg_price }
    { st with positions := mapInsert key entry st.positions }

/-- state_manager.rs, get_position: tries YES first, then NO. -/
def get_position (st : BotState) (market_slug : String) : Option PositionState :=
  (mapGet st.positions (position_key market_slug .yes)).orElse
    (fun _ => mapGet st.positions (position_key market_slug .no))

/-- state_manager.rs, get_position_for_side. -/
def get_position_for_side (st : BotState) (market_slug : String) (side : Side) :
    Option PositionState :=
  mapGet st.positions (position_key market_slug side)

/-- state_manager.rs, remove_position: removes BOTH the YES and the NO entry. -/
def remove_position (st : BotState) (market_slug : String) : BotState :=
  let positions := mapRemove (position_key market_slug .yes) st.positions
  let positions := mapRemove (position_key market_slug .no) positions
  { st with positions }

/-- state_manager.rs, remove_position_for_side. -/
def remove_position_for_side (st : BotState) (market_slug : String) (side : Side) : BotState :=
  { st with positions := mapRemove (position_key market_slug side) st.positions }

def add_order (st : BotState) (o : OrderState) : BotState :=
  { st with orders := mapInsert o.order_id o st.orders }

def update_order (st : BotState) (order_id : String) (status : Option OrderStatus)
    (filled_quantity : Option Int) : BotState :=
  match mapGet st.orders order_id with
  | some o =>
    let o := match status with | some s => { o with status := s } | none => o
    let o := match filled_quantity with | some fq => { o with filled_quantity := fq } | none => o
    { st with orders := mapInsert order_id o st.orders }
  | none => st

def remove_order (st : BotState) (order_id : String) : BotState :=
  { st with orders := mapRemove order_id st.orders }

def position_count (st : BotState) : Nat := st.positions.length

/-- state_manager.rs, market_exposure: sum of YES and NO cost bases for a slug. -/
def market_exposure (st : BotState) (market_slug : String) : Money :=
  let yes_exp := ((mapGet st.positions (position_key market_slug .yes)).map
    PositionState.cost_basis).getD 0
  let no_exp := ((mapGet st.positions (position_key market_slug .no)).map
    PositionState.cost_basis).getD 0
  yes_exp + no_exp

-- ===========================================================================
-- Circuit breaker (risk/circuit_breaker.rs)
-- ===========================================================================

/-- risk/circuit_breaker.rs, CircuitBreaker (the trip_reason log string is
dropped: can_trade is observationally the tripped flag). -/
structure CircuitBreaker where
  daily_loss_limit : Money
  max_drawdown_pct : Money
  starting_equity : Money
  peak_equity : Money
  tripped : Bool
deriving DecidableEq, Repr

def CircuitBreaker.new (daily_loss_limit max_drawdown_pct : Money) : CircuitBreaker :=
  ⟨daily_loss_limit, max_drawdown_pct, 0, 0, false⟩

/-- CircuitBreaker::initialize. -/
def CircuitBreaker.init (cb : CircuitBreaker) (equity : Money) : CircuitBreaker :=
  { cb with starting_equity := equity, peak_equity := equity, tripped := false }

/-- CircuitBreaker::update: track peak, then check daily loss, then drawdown. -/
def CircuitBreaker.update (cb : CircuitBreaker) (current_equity : Money) : CircuitBreaker :=
  if cb.tripped then cb
  else
    let cb := if current_equity > cb.peak_equity
      then { cb with peak_equity := current_equity } else cb
    let daily_loss := cb.starting_equity - current_equity
    if daily_loss ≥ cb.daily_loss_limit then { cb with tripped := true }
    else if cb.peak_equity > 0 ∧
        (cb.peak_equity - current_equity) / cb.peak_equity ≥ cb.max_drawdown_pct then
      { cb with tripped := true }
    else cb

def CircuitBreaker.can_trade (cb : CircuitBreaker) : Bool := !cb.tripped

def CircuitBreaker.emergency_stop (cb : CircuitBreaker) : CircuitBreaker :=
  { cb with tripped := true }

def CircuitBreaker.reset (cb : CircuitBreaker) (new_equity : Money) : CircuitBreaker :=
  cb.init new_equity

-- ===========================================================================
-- Kelly position sizer (risk/position_sizer.rs)
-- ===========================================================================

structure EdgeEstimate where
  probability : Money
  confidence : Money
deriving DecidableEq, Repr

structure PositionSizeResult where
  edge : Money
  kelly_full : Money
  kelly_adjusted : Money
  notional : Money
  contracts : Int
deriving DecidableEq, Repr

structure KellyPositionSizer where
  kelly_fraction : Money
  max_position_pct : Money
  min_edge : Money
deriving DecidableEq, Repr

/-- KellyPositionSizer::calculate_position_size. -/
def KellyPositionSizer.calculate_position_size (s : KellyPositionSizer)
    (bankroll market_price : Money) (edge : EdgeEstimate) : Option PositionSizeResult :=
  if bankroll ≤ 0 then none
  else if market_price ≤ 0 ∨ market_price ≥ 1 then none
  else
    let implied_edge := edge.probability - market_price
    if |implied_edge| < s.min_edge then none
    else
      let p := edge.probability
      let q := 1 - p
      let b := (1 - market_price) / market_price
      if b ≤ 0 then none
      else
        let kelly_full := (p * b - q) / b
        if kelly_full ≤ 0 then none
        else
          let kelly_adjusted := min (max (kelly_full * s.kelly_fraction * edge.confidence) 0)
            s.max_position_pct
          let notional := bankroll * kelly_adjusted
          if notional ≤ 0 then none
          else
            let contracts := ⌊notional / market_price⌋
            if contracts ≤ 0 then none
            else some ⟨implied_edge, kelly_full, kelly_adjusted, notional, contracts⟩

-- ===========================================================================
-- Exposure monitor (risk/exposure.rs)
-- ===========================================================================

structure ExposureConfig where
  max_position_per_market : Money
  max_portfolio_exposure : Money
  max_correlated_exposure : Money
  max_positions : Nat
deriving DecidableEq, Repr

/-- risk/exposure.rs, ExposureCheck (reason kept as the static message text). -/
structure ExposureCheck where
  allowed : Bool
  reason : String
  max_additional_exposure : Money
deriving DecidableEq, Repr

/-- ExposureMonitor::total_exposure = StateManager::get_total_position_value. -/
def total_exposure (st : BotState) : Money := get_total_position_value st

/-- The correlation-group loop at the end of ExposureMonitor::can_add_exposure:
first group containing the slug whose limit would be exceeded yields a failed
check; otherwise fall through. -/
def correlation_check (cfg : ExposureConfig) (st : BotState) (market_slug : String)
    (additional_exposure market_headroom portfolio_headroom : Money) :
    List (String × List String) → Option ExposureCheck
  | [] => none
  | (_, group_markets) :: rest =>
    if market_slug ∈ group_markets then
      let group_exposure := (group_markets.map (market_exposure st)).sum
      let corr_headroom := cfg.max_correlated_exposure - group_exposure
      if group_exposure + additional_exposure > cfg.max_correlated_exposure then
        some ⟨false, "Correlation group limit exceeded",
          max (min corr_headroom (min market_headroom portfolio_headroom)) 0⟩
      else
        correlation_check cfg st market_slug additional_exposure market_headroom
          portfolio_headroom rest
    else
      correlation_check cfg st market_slug additional_exposure market_headroom
        portfolio_headroom rest

/-- ExposureMonitor::can_add_exposure. -/
def can_add_exposure (cfg : ExposureConfig) (groups : List (String × List String))
    (st : BotState) (market_slug : String) (additional_exposure : Money) : ExposureCheck :=
  let current_market := market_exposure st market_slug
  let market_headroom := cfg.max_position_per_market - current_market
  if current_market + additional_exposure > cfg.max_position_per_market then
    ⟨false, "Per-market limit", max market_headroom 0⟩
  else
    let total := total_exposure st
    let portfolio_headroom := cfg.max_portfolio_exposure - total
    if total + additional_exposure > cfg.max_portfolio_exposure then
      ⟨false, "Portfolio limit", max (min portfolio_headroom market_headroom) 0⟩
    else
      let is_new_position := (get_position st market_slug).isNone
      if is_new_position ∧ position_count st ≥ cfg.max_positions then
        ⟨false, "Max positions", 0⟩
      else
        match correlation_check cfg st market_slug additional_exposure market_headroom
          portfolio_headroom groups with
        | some check => check
        | none => ⟨true, "OK", max (min market_headroom portfolio_headroom) 0⟩

-- ===========================================================================
-- Risk manager (risk/risk_manager.rs)
-- ===========================================================================

structure RiskConfig where
  kelly_fraction : Money
  min_edge : Money
  max_position_per_market : Money
  max_portfolio_exposure : Money
  max_portfolio_exposure_pct : Money
  max_correlated_exposure : Money
  max_positions : Nat
  max_daily_loss : Money
  max_drawdown_pct : Money
  max_total_pnl_drawdown_pct_for_new_buys : Money
  min_trade_size : Money
deriving DecidableEq, Repr

/-- risk_manager.rs, RiskDecision (reason kept as the static message text). -/
structure RiskDecision where
  approved : Bool
  signal : Option Signal
  reason : String
deriving DecidableEq, Repr

/-- RiskManager::new wires the sizer with max_position_pct = ONE. -/
def RiskConfig.sizer (cfg : RiskConfig) : KellyPositionSizer :=
  ⟨cfg.kelly_fraction, 1, cfg.min_edge⟩

def RiskConfig.exposure (cfg : RiskConfig) : ExposureConfig :=
  ⟨cfg.max_position_per_market, cfg.max_portfolio_exposure,
   cfg.max_correlated_exposure, cfg.max_positions⟩

/-- RiskManager::is_new_buy_blocked_by_drawdown. -/
def is_new_buy_blocked_by_drawdown (cfg : RiskConfig) (starting_equity : Money)
    (st : BotState) : Bool :=
  if cfg.max_total_pnl_drawdown_pct_for_new_buys ≤ 0 then false
  else if starting_equity ≤ 0 then false
  else
    decide ((starting_equity - get_total_equity st) / starting_equity ≥
      cfg.max_total_pnl_drawdown_pct_for_new_buys)

/-- RiskManager::evaluate_signal.  The mutable manager is threaded explicitly:
the result pairs the updated circuit breaker with the decision.  Early returns
in the cash / Kelly / resize steps are expressed as intermediate Options. -/
def evaluate_signal (cfg : RiskConfig) (groups : List (String × List String))
    (starting_equity : Money) (cb : CircuitBreaker) (st : BotState) (s : Signal) :
    CircuitBreaker × RiskDecision :=
  if s.action.is_cancel then (cb, ⟨true, some s, "Approved: cancel"⟩)
  else
    let cb := cb.update (get_total_equity st)
    if cb.tripped then
      if s.action.is_sell then
        (cb, ⟨true, some s, "Approved: circuit breaker allows exits"⟩)
      else (cb, ⟨false, none, "Circuit breaker"⟩)
    else
      let qty := s.quantity
      let price := s.price
      if qty ≤ 0 then (cb, ⟨false, none, "Rejected: non-positive quantity"⟩)
      else
        let cash_step : Option Int :=
          if s.action.is_buy ∧ price > 0 then
            let max_affordable_qty := ⌊(get_balance st * ((98 : Money) / 100)) / price⌋
            if max_affordable_qty ≤ 0 then none
            else some (min qty max_affordable_qty)
          else some qty
        match cash_step with
        | none => (cb, ⟨false, none, "Rejected: insufficient cash"⟩)
        | some qty =>
          let kelly_step : Option Int :=
            if s.action.is_buy then
              match s.true_probability with
              | some true_prob =>
                match cfg.sizer.calculate_position_size (get_total_equity st) price
                  ⟨true_prob, s.confidence⟩ with
                | some result => some (min qty result.contracts)
                | none => none
              | none => some qty
            else some qty
          match kelly_step with
          | none => (cb, ⟨false, none, "Rejected: insufficient edge/confidence"⟩)
          | some qty =>
            let notional := price * qty
            if notional < cfg.min_trade_size then
              (cb, ⟨false, none, "Rejected: below min trade size"⟩)
            else if s.action.is_buy then
              if is_new_buy_blocked_by_drawdown cfg starting_equity st then
                (cb, ⟨false, none, "Rejected: portfolio drawdown blocks new buys"⟩)
              else
                let check := can_add_exposure cfg.exposure groups st s.market_slug notional
                let current_total := total_exposure st
                let equity := get_total_equity st
                let max_by_pct := equity * cfg.max_portfolio_exposure_pct
                let max_additional_pct := max (max_by_pct - current_total) 0
                let max_additional := min check.max_additional_exposure max_additional_pct
                if check.allowed = false ∧ max_additional ≤ 0 then
                  (cb, ⟨false, none, "Rejected: exposure"⟩)
                else
                  let resize_step : Option Int :=
                    if notional > max_additional then
                      if max_additional ≥ cfg.min_trade_size then
                        let reduced_qty := ⌊max_additional / price⌋
                        if reduced_qty ≤ 0 then none
                        else some (min qty reduced_qty)
                      else none
                    else some qty
                  match resize_step with
                  | none => (cb, ⟨false, none, "Rejected: exposure limits"⟩)
                  | some qty =>
                    let final_notional := price * qty
                    if final_notional < cfg.min_trade_size then
                      (cb, ⟨false, none, "Rejected: below min trade size"⟩)
                    else
                      (cb, ⟨true, some { s with quantity := qty }, "Approved"⟩)
            else
              (cb, ⟨true, some { s with quantity := qty }, "Approved"⟩)

-- ===========================================================================
-- Order book and tracker (data/models.rs, data/orderbook.rs)
-- ===========================================================================

/-- models.rs, PriceLevel. -/
structure PriceLevel where
  price : Money
  quantity : Int
deriving DecidableEq, Repr

/-- models.rs, OrderBookSide. -/
structure OrderBookSide where
  bids : List PriceLevel
  asks : List PriceLevel
deriving DecidableEq, Repr

def OrderBookSide.best_bid (s : OrderBookSide) : Option Money :=
  (s.bids.map PriceLevel.price).max?

def OrderBookSide.best_ask (s : OrderBookSide) : Option Money :=
  (s.asks.map PriceLevel.price).min?

/-- models.rs, OrderBook. -/
structure OrderBook where
  market_slug : String
  yes : OrderBookSide
  no : OrderBookSide
deriving DecidableEq, Repr

/-- orderbook.rs, TopOfBook. -/
structure TopOfBook where
  yes_best_bid : Option Money
  yes_best_ask : Option Money
  no_best_bid : Option Money
  no_best_ask : Option Money
deriving DecidableEq, Repr

/-- TopOfBook::completeness_sum. -/
def TopOfBook.completeness_sum (t : TopOfBook) : Option Money :=
  match t.yes_best_ask, t.no_best_ask with
  | some yes_ask, some no_ask => some (yes_ask + no_ask)
  | _, _ => none

/-- OrderBookTracker::compute_top. -/
def compute_top (book : OrderBook) : TopOfBook :=
  ⟨book.yes.best_bid, book.yes.best_ask, book.no.best_bid, book.no.best_ask⟩

/-- orderbook.rs, TrackerInner: the contents guarded by the tracker lock. -/
structure TrackerInner where
  books : List (String × OrderBook)
  tops : List (String × TopOfBook)
deriving DecidableEq, Repr

/-- OrderBookTracker::update. -/
def tracker_update (t : TrackerInner) (book : OrderBook) : TrackerInner :=
  ⟨mapInsert book.market_slug book t.books,
   mapInsert book.market_slug (compute_top book) t.tops⟩

/-- orderbook.rs, CompletenessArbSignal. -/
structure CompletenessArbSignal where
  market_slug : String
  yes_ask : Money
  no_ask : Money
  combined_cost : Money
  gross_margin : Money
  net_margin : Money
deriving DecidableEq, Repr

/-- The per-market body of the filter_map closure inside
OrderBookTracker::scan_completeness_arb (fee_rate is the hard-coded 10 bps). -/
def scan_entry (min_margin : Money) (slug : String) (top : TopOfBook) :
    Option CompletenessArbSignal :=
  match top.completeness_sum with
  | none => none
  | some combined =>
    if combined ≥ 1 then none
    else
      let gross_margin := 1 - combined
      let fee_cost := combined * ((1 : Money) / 1000)
      let net_margin := gross_margin - fee_cost
      if net_margin > min_margin then
        match top.yes_best_ask, top.no_best_ask with
        | some yes_ask, some no_ask =>
          some ⟨slug, yes_ask, no_ask, combined, gross_margin, net_margin⟩
        | _, _ => none
      else none

/-- OrderBookTracker::scan_completeness_arb. -/
def scan_completeness_arb (t : TrackerInner) (min_margin : Money) :
    List CompletenessArbSignal :=
  t.tops.filterMap (fun e => scan_entry min_margin e.1 e.2)

-- ===========================================================================
-- Paper executor (execution/paper.rs)
-- ===========================================================================

/-- execution/paper.rs, PaperFill (timestamp dropped). -/
structure PaperFill where
  order_id : String
  market_slug : String
  side : Side
  is_buy : Bool
  price : Money
  quantity : Int
  fee : Money
deriving DecidableEq, Repr

/-- paper.rs, RestingOrder (created_at dropped). -/
structure RestingOrder where
  order_id : String
  market_slug : String
  intent : OrderIntent
  price : Money
  total_quantity : Int
  filled_quantity : Int
deriving DecidableEq, Repr

def RestingOrder.remaining (o : RestingOrder) : Int :=
  o.total_quantity - o.filled_quantity

/-- paper.rs, PaperPerformance. -/
structure PaperPerformance where
  total_trades : Nat
  winning_trades : Nat
  losing_trades : Nat
  total_pnl : Money
  max_equity : Money
  max_drawdown : Money
  total_fees_paid : Money
  total_volume : Money
deriving DecidableEq, Repr

/-- PaperPerformance::update_drawdown. -/
def PaperPerformance.update_drawdown (p : PaperPerformance) (current_equity : Money) :
    PaperPerformance :=
  let p := if current_equity > p.max_equity then { p with max_equity := current_equity } else p
  let drawdown := p.max_equity - current_equity
  if drawdown > p.max_drawdown then { p with max_drawdown := drawdown } else p

/-- paper.rs, PaperPosition: internal tracker with entry prices. -/
structure PaperPosition where
  side : Side
  quantity : Int
  avg_price : Money
  total_cost : Money
deriving DecidableEq, Repr

/-- PaperPosition::new. -/
def PaperPosition.new (side : Side) (quantity : Int) (price : Money) : PaperPosition :=
  ⟨side, quantity, price, price * quantity⟩

/-- PaperPosition::add — weighted-average entry update. -/
def PaperPosition.add (p : PaperPosition) (quantity : Int) (price : Money) : PaperPosition :=
  let total_cost := p.total_cost + price * quantity
  let q := p.quantity + quantity
  let avg_price := if q > 0 then total_cost / q else p.avg_price
  { p with total_cost, quantity := q, avg_price }

/-- PaperPosition::reduce — returns the updated position and realized P&L. -/
def PaperPosition.reduce (p : PaperPosition) (quantity : Int) (exit_price : Money) :
    PaperPosition × Money :=
  let close_qty := min quantity p.quantity
  if close_qty ≤ 0 then (p, 0)
  else
    let pnl := (exit_price - p.avg_price) * close_qty
    let total_cost := p.total_cost - p.avg_price * close_qty
    let q := p.quantity - close_qty
    if q ≤ 0 then ({ p with quantity := 0, total_cost := 0, avg_price := 0 }, pnl)
    else ({ p with quantity := q, total_cost }, pnl)

/-- paper.rs, ExecResult (error kept as the static message text). -/
structure ExecResult where
  order_id : String
  status : OrderStatus
  filled_quantity : Int
  avg_fill_price : Option Money
  fee : Money
  error : Option String
deriving DecidableEq, Repr

/-- paper.rs, PaperExecutor.  The order-book tracker handle is embedded by its
books map (get_full is a lookup). -/
structure PaperExecutor where
  state : BotState
  books : List (String × OrderBook)
  initial_balance : Money
  positions : List (String × PaperPosition)
  resting_orders : List (String × RestingOrder)
  fill_history : List PaperFill
  performance : PaperPerformance
  next_order_id : Nat
  fee_rate : Money
  slippage_bps : Money
deriving DecidableEq, Repr

/-- Stable ascending insertion by price (embeds the stable sort_by on asks). -/
def insert_by_price_asc (x : PriceLevel) : List PriceLevel → List PriceLevel
  | [] => [x]
  | y :: ys => if x.price ≤ y.price then x :: y :: ys else y :: insert_by_price_asc x ys

def sort_by_price_asc : List PriceLevel → List PriceLevel
  | [] => []
  | x :: xs => insert_by_price_asc x (sort_by_price_asc xs)

/-- Stable descending insertion by price (embeds the stable sort_by on bids). -/
def insert_by_price_desc (x : PriceLevel) : List PriceLevel → List PriceLevel
  | [] => [x]
  | y :: ys => if y.price ≤ x.price then x :: y :: ys else y :: insert_by_price_desc x ys

def sort_by_price_desc : List PriceLevel → List PriceLevel
  | [] => []
  | x :: xs => insert_by_price_desc x (sort_by_price_desc xs)

/-- The accumulator loop of PaperExecutor::walk_levels. -/
def walk_levels_go : List PriceLevel → Int → Int → Money → Int × Money
  | [], _, filled, total_cost => (filled, total_cost)
  | level :: rest, requested_qty, filled, total_cost =>
    if filled ≥ requested_qty then (filled, total_cost)
    else
      let can_fill := min level.quantity (requested_qty - filled)
      walk_levels_go rest requested_qty (filled + can_fill)
        (total_cost + level.price * can_fill)

/-- PaperExecutor::walk_levels: fill up to requested_qty, return (qty, VWAP). -/
def walk_levels (levels : List PriceLevel) (requested_qty : Int) : Int × Money :=
  let r := walk_levels_go levels requested_qty 0 0
  if r.1 = 0 then (0, 0) else (r.1, r.2 / r.1)

/-- PaperExecutor::walk_asks_with_slippage. -/
def PaperExecutor.walk_asks_with_slippage (ex : PaperExecutor) (book_side : OrderBookSide)
    (requested_qty : Int) : Int × Money :=
  let asks := sort_by_price_asc book_side.asks
  let r := walk_levels asks requested_qty
  if r.1 = 0 then (0, 0) else (r.1, r.2 * (1 + ex.slippage_bps))

/-- PaperExecutor::walk_bids_with_slippage. -/
def PaperExecutor.walk_bids_with_slippage (ex : PaperExecutor) (book_side : OrderBookSide)
    (requested_qty : Int) : Int × Money :=
  let bids := sort_by_price_desc book_side.bids
  let r := walk_levels bids requested_qty
  if r.1 = 0 then (0, 0) else (r.1, r.2 * (1 - ex.slippage_bps))

/-- The accumulator loop shared by simulate_limit_buy_fill / sell_fill. -/
def limit_walk_go : List PriceLevel → Int → Int → Money → Int × Money
  | [], _, filled, amount => (filled, amount)
  | level :: rest, requested_qty, filled, amount =>
    if filled ≥ requested_qty then (filled, amount)
    else
      let can_fill := min level.quantity (requested_qty - filled)
      limit_walk_go rest requested_qty (filled + can_fill) (amount + level.price * can_fill)

/-- PaperExecutor::simulate_limit_buy_fill: asks at or below the limit. -/
def simulate_limit_buy_fill (book_side : OrderBookSide) (limit_price : Money)
    (requested_qty : Int) : Int × Money :=
  let asks := sort_by_price_asc (book_side.asks.filter (fun a => a.price ≤ limit_price))
  let r := limit_walk_go asks requested_qty 0 0
  if r.1 = 0 then (0, limit_price) else (r.1, r.2 / r.1)

/-- PaperExecutor::simulate_limit_sell_fill: bids at or above the limit. -/
def simulate_limit_sell_fill (book_side : OrderBookSide) (limit_price : Money)
    (requested_qty : Int) : Int × Money :=
  let bids := sort_by_price_desc (book_side.bids.filter (fun b => b.price ≥ limit_price))
  let r := limit_walk_go bids requested_qty 0 0
  if r.1 = 0 then (0, limit_price) else (r.1, r.2 / r.1)

/-- PaperExecutor::record_fill: update balance, internal position, the state
store sync, metrics and the fill log. -/
def PaperExecutor.record_fill (ex : PaperExecutor) (order_id market_slug : String)
    (side : Side) (is_buy : Bool) (fill_price : Money) (fill_qty : Int) :
    PaperExecutor × PaperFill :=
  let notional := fill_price * fill_qty
  let fee := notional * ex.fee_rate
  let current_balance := ex.state.balance
  let st := if is_buy
    then update_balance ex.state (current_balance - notional - fee)
    else update_balance ex.state (current_balance + notional - fee)
  let pos_key := position_key market_slug side
  let step : List (String × PaperPosition) × Money :=
    if is_buy then
      let pos := ((mapGet ex.positions pos_key).getD (PaperPosition.new side 0 0)).add
        fill_qty fill_price
      (mapInsert pos_key pos ex.positions, 0)
    else
      match mapGet ex.positions pos_key with
      | some pos =>
        let r := pos.reduce fill_qty fill_price
        if r.1.quantity ≤ 0 then (mapRemove pos_key ex.positions, r.2)
        else (mapInsert pos_key r.1 ex.positions, r.2)
      | none => (ex.positions, 0)
  let positions := step.1
  let realized_pnl := step.2
  let st := match mapGet positions pos_key with
    | some pos => update_position st market_slug side pos.quantity pos.avg_price
    | none => remove_position st market_slug
  let perf := ex.performance
  let perf := { perf with
    total_trades := perf.total_trades + 1,
    total_fees_paid := perf.total_fees_paid + fee,
    total_volume := perf.total_volume + notional }
  let perf := if realized_pnl > 0 then { perf with winning_trades := perf.winning_trades + 1 }
    else if realized_pnl < 0 then { perf with losing_trades := perf.losing_trades + 1 }
    else perf
  let perf := { perf with total_pnl := perf.total_pnl + realized_pnl }
  let perf := perf.update_drawdown (get_total_equity st)
  let fill : PaperFill := ⟨order_id, market_slug, side, is_buy, fill_price, fill_qty, fee⟩
  let fill_history := ex.fill_history ++ [fill]
  ({ ex with state := st, positions, performance := perf, fill_history }, fill)

/-- PaperExecutor::execute_market_order. -/
def PaperExecutor.execute_market_order (ex : PaperExecutor) (order_id : String)
    (s : Signal) (intent : OrderIntent) (is_buy : Bool) (book : Option OrderBook) :
    PaperExecutor × ExecResult :=
  let side := intent.side
  let book_side : Option OrderBookSide :=
    match book with
    | some b =>
      match is_buy, side with
      | true, .yes => some b.yes
      | true, .no => some b.no
      | false, .yes => some b.yes
      | false, .no => some b.no
    | none => none
  let walked : Int × Money :=
    match book_side with
    | some bs => if is_buy then ex.walk_asks_with_slippage bs s.quantity
        else ex.walk_bids_with_slippage bs s.quantity
    | none =>
      let slipped := if is_buy then s.price * (1 + ex.slippage_bps)
        else s.price * (1 - ex.slippage_bps)
      (s.quantity, slipped)
  let filled_qty := walked.1
  let avg_price := walked.2
  if filled_qty = 0 then
    (ex, ⟨order_id, .rejected, 0, none, 0, some "No liquidity available in order book"⟩)
  else
    let r := ex.record_fill order_id s.market_slug side is_buy avg_price filled_qty
    let ex := r.1
    let status := if filled_qty ≥ s.quantity then OrderStatus.filled
      else OrderStatus.partiallyFilled
    let order : OrderState :=
      ⟨order_id, s.market_slug, intent, avg_price, s.quantity, filled_qty, status⟩
    let ex := { ex with state := add_order ex.state order }
    (ex, ⟨order_id, status, filled_qty, some avg_price, r.2.fee, none⟩)

/-- PaperExecutor::execute_limit_order. -/
def PaperExecutor.execute_limit_order (ex : PaperExecutor) (order_id : String)
    (s : Signal) (intent : OrderIntent) (is_buy : Bool) (book : Option OrderBook) :
    PaperExecutor × ExecResult :=
  let side := intent.side
  let book_side : Option OrderBookSide :=
    match book with
    | some b =>
      match is_buy, side with
      | true, .yes => some b.yes
      | true, .no => some b.no
      | false, .yes => some b.yes
      | false, .no => some b.no
    | none => none
  let walked : Int × Money :=
    match book_side with
    | some bs => if is_buy then simulate_limit_buy_fill bs s.price s.quantity
        else simulate_limit_sell_fill bs s.price s.quantity
    | none => (0, s.price)
  let immediate_fill := walked.1
  let fill_price := walked.2
  let remaining := s.quantity - immediate_fill
  let step : PaperExecutor × Money :=
    if immediate_fill > 0 then
      let r := ex.record_fill order_id s.market_slug side is_buy fill_price immediate_fill
      (r.1, r.2.fee)
    else (ex, 0)
  let ex := step.1
  let total_fee := step.2
  let status := if remaining ≤ 0 then OrderStatus.filled
    else if immediate_fill > 0 then OrderStatus.partiallyFilled
    else OrderStatus.open
  let order : OrderState :=
    ⟨order_id, s.market_slug, intent, s.price, s.quantity, immediate_fill, status⟩
  let ex := { ex with state := add_order ex.state order }
  let ex := if remaining > 0 then
      let resting : RestingOrder :=
        ⟨order_id, s.market_slug, intent, s.price, s.quantity, immediate_fill⟩
      { ex with resting_orders := mapInsert order_id resting ex.resting_orders }
    else ex
  (ex, ⟨order_id, status, immediate_fill,
    if immediate_fill > 0 then some fill_price else none, total_fee, none⟩)

/-- PaperExecutor::cancel_all. -/
def PaperExecutor.cancel_all (ex : PaperExecutor) (market_slug : String) :
    PaperExecutor × ExecResult :=
  let to_cancel := (ex.resting_orders.filter (fun e => e.2.market_slug = market_slug)).map
    (fun e => e.1)
  let resting_orders := ex.resting_orders.filter (fun e => ¬ e.2.market_slug = market_slug)
  let st := to_cancel.foldl
    (fun st id => remove_order (update_order st id (some .cancelled) none) id) ex.state
  ({ ex with resting_orders, state := st },
   ⟨"", .cancelled, 0, none, 0, none⟩)

/-- PaperExecutor::execute_signal. -/
def PaperExecutor.execute_signal (ex : PaperExecutor) (s : Signal) :
    PaperExecutor × ExecResult :=
  if s.action.is_cancel then ex.cancel_all s.market_slug
  else
    match s.action.to_intent with
    | none => (ex, ⟨"", .rejected, 0, none, 0, some "Invalid signal action"⟩)
    | some intent =>
      let is_buy := s.action.is_buy
      let cost := s.price * s.quantity
      let fee_estimate := cost * ex.fee_rate
      if is_buy ∧ s.price > 0 ∧ cost + fee_estimate > ex.state.balance then
        (ex, ⟨"", .rejected, 0, none, 0, some "Insufficient balance"⟩)
      else
        let held := ((mapGet ex.positions (position_key s.market_slug intent.side)).map
          (fun p => p.quantity)).getD 0
        if s.action.is_sell ∧ held ≤ 0 then
          (ex, ⟨"", .rejected, 0, none, 0, some "No position to sell"⟩)
        else
          let order_id := "paper-" ++ toString ex.next_order_id
          let ex := { ex with next_order_id := ex.next_order_id + 1 }
          let is_market_order := s.urgency = .critical ∨ s.urgency = .high
          let book := mapGet ex.books s.market_slug
          if is_market_order then ex.execute_market_order order_id s intent is_buy book
          else ex.execute_limit_order order_id s intent is_buy book

-- ===========================================================================
-- Market-maker stop-loss (strategies/market_maker.rs)
-- ===========================================================================

/-- The slice of MarketMakerConfig read by check_stop_loss. -/
structure MarketMakerConfig where
  stop_loss_pct : Money
  aggressive_stop_loss_pct : Money
  max_underwater_hold_seconds : Int
deriving DecidableEq, Repr

/-- market_maker.rs, clamp_price: clamp into the 0.01 to 0.99 band. -/
def clamp_price (price : Money) : Money :=
  min (max price ((1 : Money) / 100)) ((99 : Money) / 100)

/-- MarketMakerStrategy::check_stop_loss.  The position age is an explicit
argument (the source derives it from Utc::now and created_at); the cooldown
map is embedded by its key set, updated as the second component. -/
def check_stop_loss (cfg : MarketMakerConfig) (cooldowns : List String)
    (position : PositionState) (market : MarketState) (age_seconds : Int) :
    List Signal × List String :=
  let pair : Option Money × Option Money :=
    match position.side with
    | .yes => (market.yes_bid, market.yes_bid)
    | .no => (market.yes_ask, market.yes_ask.map (fun p => 1 - p))
  match pair with
  | (some exit_price, some effective_close_price) =>
    if position.avg_price > 0 then
      let pnl_pct := (effective_close_price - position.avg_price) / position.avg_price
      let stop_loss_trigger := pnl_pct ≤ -cfg.aggressive_stop_loss_pct
      let hard_stop_trigger := pnl_pct ≤ -cfg.stop_loss_pct
      let time_exit_trigger :=
        age_seconds ≥ cfg.max_underwater_hold_seconds ∧ pnl_pct < 0
      if stop_loss_trigger ∨ hard_stop_trigger ∨ time_exit_trigger then
        let action := match position.side with
          | .yes => SignalAction.sellYes
          | .no => SignalAction.buyYes
        let sig : Signal :=
          { market_slug := position.market_slug, action, price := clamp_price exit_price,
            quantity := position.quantity, urgency := .high,
            confidence := (95 : Money) / 100, true_probability := none }
        ([sig], position.market_slug :: cooldowns)
      else ([], cooldowns)
    else ([], cooldowns)
  | _ => ([], cooldowns)

-- ===========================================================================
-- REST client retry loop (api/client.rs, api/errors.rs)
-- ===========================================================================

/-- api/errors.rs, ApiError. -/
inductive ApiError where
  | http (status_code : Nat) (error_code message : String)
  | rateLimited (retry_after : Nat)
  | insufficientBalance (msg : String)
  | marketClosed (msg : String)
  | invalidOrder (msg : String)
  | authentication (msg : String)
  | network (msg : String)
  | timeout (msg : String)
  | deserialization (msg : String)
  | maxRetriesExceeded (attempts : Nat) (last_error : String)
deriving DecidableEq, Repr

def ApiError.is_max_retries_exceeded : ApiError → Bool
  | .maxRetriesExceeded _ _ => true
  | _ => false

/-- ApiError::from_response over a pre-parsed error body: the JSON layer is
abstracted to the optional (code, message) pair the source extracts. -/
def ApiError.from_response (status_code : Nat) (body : Option (String × String)) : ApiError :=
  match body with
  | some (code, message) =>
    if code = "INSUFFICIENT_BALANCE" then .insufficientBalance message
    else if code = "MARKET_CLOSED" then .marketClosed message
    else if code = "INVALID_PRICE" ∨ code = "INVALID_QUANTITY" then .invalidOrder message
    else if code = "RATE_LIMITED" then .rateLimited 1
    else .http status_code code message
  | none => .http status_code "UNKNOWN" ""

/-- One attempt of PolymarketClient::request as seen from the loop body:
what the send returned. -/
inductive AttemptOutcome where
  | ok (json : String)
  | okBodyReadError (msg : String)
  | okUnparseable (msg : String)
  | rateLimited (retry_after : Option Nat)
  | serverError (status : Nat)
  | clientError (status : Nat) (body : Option (String × String))
  | transportTimeout (msg : String)
  | transportError (msg : String)
deriving DecidableEq, Repr

/-- The retry loop of PolymarketClient::request.  remaining counts the
attempts still allowed; attempt is the 0-based attempt index; the sleep trace
records each sleep in milliseconds. -/
def request_go (max_retries : Nat) (outcomes : Nat → AttemptOutcome) :
    Nat → Nat → Option ApiError → List Nat → Except ApiError String × List Nat
  | 0, _, last_error, sleeps =>
    (.error (last_error.getD (.maxRetriesExceeded max_retries "Unknown error")), sleeps)
  | remaining + 1, attempt, _last_error, sleeps =>
    match outcomes attempt with
    | .ok json => (.ok json, sleeps)
    | .okBodyReadError msg => (.error (.network msg), sleeps)
    | .okUnparseable msg => (.error (.deserialization msg), sleeps)
    | .rateLimited ra =>
      let retry_after := ra.getD 1
      request_go max_retries outcomes remaining (attempt + 1)
        (some (.rateLimited retry_after)) (sleeps ++ [retry_after * 1000])
    | .serverError status =>
      request_go max_retries outcomes remaining (attempt + 1)
        (some (.http status "SERVER_ERROR" "")) (sleeps ++ [500 * 2 ^ attempt])
    | .clientError status body => (.error (ApiError.from_response status body), sleeps)
    | .transportTimeout msg =>
      request_go max_retries outcomes remaining (attempt + 1)
        (some (.timeout msg)) (sleeps ++ [500 * 2 ^ attempt])
    | .transportError msg =>
      request_go max_retries outcomes remaining (attempt + 1)
        (some (.network msg)) (sleeps ++ [500 * 2 ^ attempt])

/-- PolymarketClient::request: run the loop for max_retries attempts. -/
def request (max_retries : Nat) (outcomes : Nat → AttemptOutcome) :
    Except ApiError String × List Nat :=
  request_go max_retries outcomes max_retries 0 none []

-- ===========================================================================
-- Helper lemmas about the association-list map operations
-- ===========================================================================

theorem mapGet_mapInsert_self {β : Type} (k : String) (v : β) (m : List (String × β)) :
    mapGet (mapInsert k v m) k = some v := by
  simp [mapGet, mapInsert, List.lookup]

theorem mapGet_mapRemove_self {β : Type} (k : String) (m : List (String × β)) :
    mapGet (mapRemove k m) k = none := by
  induction m with
  | nil => rfl
  | cons e t ih =>
    by_cases h : e.1 = k
    · simpa [mapRemove, List.filter, h] using ih
    · have hb : (k == e.1) = false := beq_eq_false_iff_ne.mpr (Ne.symm h)
      simpa [mapRemove, List.filter, h, mapGet, List.lookup, hb] using ih

theorem lookup_filter_none {β : Type} (k : String) (p : String × β → Bool)
    (m : List (String × β)) (h : List.lookup k m = none) :
    List.lookup k (m.filter p) = none := by
  induction m with
  | nil => rfl
  | cons e t ih =>
    rcases hb : (k == e.1) with _ | _
    · have ht : List.lookup k t = none := by
        simpa [List.lookup, hb] using h
      rcases hp : p e with _ | _
      · simpa [List.filter, hp] using ih ht
      · simpa [List.filter, hp, List.lookup, hb] using ih ht
    · exfalso
      simp [List.lookup, hb] at h

theorem mapGet_mapRemove_of_none {β : Type} (k k2 : String) (m : List (String × β))
    (h : mapGet m k = none) : mapGet (mapRemove k2 m) k = none :=
  lookup_filter_none k _ m h

-- ===========================================================================
-- Helper lemmas: circuit breaker
-- ===========================================================================

theorem if_gt_eq_max (a b : Money) : (if b > a then b else a) = max a b := by
  rcases lt_or_ge a b with h | h
  · simp [if_pos h, max_eq_right h.le]
  · rw [if_neg (not_lt.mpr h), max_eq_left h]

theorem update_tripped_iff (cb : CircuitBreaker) (e : Money) (h : cb.tripped = false) :
    (cb.update e).tripped = true ↔
      cb.starting_equity - e ≥ cb.daily_loss_limit ∨
      (max cb.peak_equity e > 0 ∧
        (max cb.peak_equity e - e) / max cb.peak_equity e ≥ cb.max_drawdown_pct) := by
  unfold CircuitBreaker.update
  rw [h]
  rcases lt_or_ge cb.peak_equity e with hp | hp
  · rw [max_eq_right hp.le]
    simp only [Bool.false_eq_true, if_false, if_pos hp]
    split_ifs with h1 h2 <;> simp_all
  · rw [max_eq_left hp]
    have hnp : ¬ e > cb.peak_equity := not_lt.mpr hp
    simp only [Bool.false_eq_true, if_false, if_neg hnp]
    split_ifs with h1 h2 <;> simp_all

theorem update_of_tripped (cb : CircuitBreaker) (e : Money) (h : cb.tripped = true) :
    cb.update e = cb := by
  unfold CircuitBreaker.update
  rw [h]
  rfl

theorem foldl_update_tripped (cb : CircuitBreaker) (es : List Money)
    (h : cb.tripped = true) : (es.foldl CircuitBreaker.update cb).tripped = true := by
  induction es generalizing cb with
  | nil => exact h
  | cons e t ih =>
    simp only [List.foldl_cons, update_of_tripped _ _ h]
    exact ih cb h

theorem tripped_pipeline_iff (cfg : RiskConfig) (groups : List (String × List String))
    (starting_equity : Money) (cb : CircuitBreaker) (st : BotState) (s : Signal)
    (h : cb.tripped = true) :
    (evaluate_signal cfg groups starting_equity cb st s).2.approved = true ↔
      (s.action.is_sell = true ∨ s.action.is_cancel = true) := by
  obtain ⟨slug, act, price, qty, urg, conf, tp⟩ := s
  cases act <;>
    simp [evaluate_signal, SignalAction.is_cancel, SignalAction.is_sell,
      CircuitBreaker.update, h]

-- ===========================================================================
-- Claim theorems
-- ===========================================================================

/-- Claim C1: the circuit breaker trips on an update exactly when the daily
loss reaches daily_loss_limit or the drawdown from the (updated) peak reaches
max_drawdown_pct; with daily_loss_limit 100 and start 1000, an update to
900.01 leaves it armed and an update to 900.00 trips it; once tripped it
stays tripped across any sequence of later updates; and while tripped the
risk pipeline approves exactly the sell and cancel signals. -/
theorem circuit_breaker_spec :
    (∀ (cb : CircuitBreaker) (e : Money), cb.tripped = false →
      ((cb.update e).tripped = true ↔
        cb.starting_equity - e ≥ cb.daily_loss_limit ∨
        (max cb.peak_equity e > 0 ∧
          (max cb.peak_equity e - e) / max cb.peak_equity e ≥ cb.max_drawdown_pct)))
    ∧ (∀ (cb : CircuitBreaker) (es : List Money), cb.tripped = true →
        (es.foldl CircuitBreaker.update cb).tripped = true)
    ∧ (((CircuitBreaker.new 100 (1 / 2)).init 1000).update ((90001 : Money) / 100)).tripped
        = false
    ∧ (((CircuitBreaker.new 100 (1 / 2)).init 1000).update 900).tripped = true
    ∧ (∀ (cfg : RiskConfig) (groups : List (String × List String))
        (starting_equity : Money) (cb : CircuitBreaker) (st : BotState) (s : Signal),
        cb.tripped = true →
        ((evaluate_signal cfg groups starting_equity cb st s).2.approved = true ↔
          (s.action.is_sell = true ∨ s.action.is_cancel = true))) := by
  refine ⟨update_tripped_iff, foldl_update_tripped, ?_, ?_, ?_⟩
  · norm_num +decide [CircuitBreaker.update, CircuitBreaker.init, CircuitBreaker.new]
  · norm_num +decide [CircuitBreaker.update, CircuitBreaker.init, CircuitBreaker.new]
  · intro cfg groups starting_equity cb st s h
    exact tripped_pipeline_iff cfg groups starting_equity cb st s h

/-- Witness for C1 at concrete inputs: updating the armed breaker
(limit 100, start 1000) to 900 trips it, an emergency-stopped breaker stays
tripped over further updates, and a tripped breaker approves a sell but not a
buy through the pipeline. -/
theorem circuit_breaker_spec_witness :
    (((CircuitBreaker.new 100 (1 / 2)).init 1000).update 900).tripped = true
    ∧ (([950, 1050] : List Money).foldl CircuitBreaker.update
        (((CircuitBreaker.new 100 (1 / 2)).init 1000).emergency_stop)).tripped = true
    ∧ (evaluate_signal ⟨1 / 4, 1 / 50, 200, 10000, 1, 100000, 10, 1000000, 1, 0, 1⟩ []
        1000 (((CircuitBreaker.new 100 (1 / 2)).init 1000).emergency_stop)
        ⟨1000, [], [], []⟩ ⟨"m", .sellYes, 1 / 2, 10, .low, 1, none⟩).2.approved = true := by
  refine ⟨?_, ?_, ?_⟩
  · exact (circuit_breaker_spec.1 _ 900 (by decide)).mpr
      (Or.inl (by norm_num [CircuitBreaker.new, CircuitBreaker.init]))
  · exact circuit_breaker_spec.2.1 _ [950, 1050] (by decide)
  · exact (circuit_breaker_spec.2.2.2.2 _ [] 1000 _ _ _ (by decide)).mpr (Or.inl (by decide))

/-- Claim C2: for bankroll > 0 and market price in (0,1), the Kelly sizer
returns None exactly when the edge is below min_edge (strict), the full Kelly
fraction is nonpositive, or the floored contract count is nonpositive; at
quarter Kelly with bankroll 1000, price 0.50, p 0.60, confidence 1 it returns
kelly_full 0.20, kelly_adjusted 0.05, notional 50 and 100 contracts. -/
theorem kelly_sizer_spec :
    (∀ (s : KellyPositionSizer) (bankroll market_price p c : Money),
      0 < bankroll → 0 < market_price → market_price < 1 →
      (s.calculate_position_size bankroll market_price ⟨p, c⟩ = none ↔
        |p - market_price| < s.min_edge ∨
        (p * ((1 - market_price) / market_price) - (1 - p)) /
          ((1 - market_price) / market_price) ≤ 0 ∨
        ⌊bankroll * (min s.max_position_pct
            (max ((p * ((1 - market_price) / market_price) - (1 - p)) /
              ((1 - market_price) / market_price) * s.kelly_fraction * c) 0)) /
          market_price⌋ ≤ 0))
    ∧ KellyPositionSizer.calculate_position_size ⟨1 / 4, 1, 1 / 50⟩ 1000 (1 / 2)
        ⟨3 / 5, 1⟩ = some ⟨1 / 10, 1 / 5, 1 / 20, 50, 100⟩ := by
  constructor
  · intro s bankroll mp p c hb h0 h1
    have hb2 : ¬ bankroll ≤ 0 := not_le.mpr hb
    have hmp : ¬ (mp ≤ 0 ∨ mp ≥ 1) := by
      push_neg
      exact ⟨h0, h1⟩
    have hbpos : (0 : Money) < (1 - mp) / mp := div_pos (by linarith) h0
    unfold KellyPositionSizer.calculate_position_size
    rw [if_neg hb2, if_neg hmp]
    by_cases he : |p - mp| < s.min_edge
    · simp [he]
    · rw [if_neg he, if_neg (not_le.mpr hbpos)]
      by_cases hk : (p * ((1 - mp) / mp) - (1 - p)) / ((1 - mp) / mp) ≤ 0
      · simp [hk, he]
      · rw [if_neg hk]
        rw [min_comm s.max_position_pct]
        set ka := min (max ((p * ((1 - mp) / mp) - (1 - p)) / ((1 - mp) / mp) *
          s.kelly_fraction * c) 0) s.max_position_pct with hka
        by_cases hn : bankroll * ka ≤ 0
        · rw [if_pos hn]
          have hfl : ⌊bankroll * ka / mp⌋ ≤ 0 :=
            Int.floor_nonpos (div_nonpos_of_nonpos_of_nonneg hn h0.le)
          simp [he, hk, hfl]
        · rw [if_neg hn]
          by_cases hc : ⌊bankroll * ka / mp⌋ ≤ 0
          · simp [hc, he, hk]
          · simp [hc, he, hk]
  · norm_num +decide [KellyPositionSizer.calculate_position_size, abs_of_nonneg]

/-- Witness for C2: the universal part applied at bankroll 1000, price 0.50,
p 0.505, confidence 1 with min_edge 0.02 — the edge 0.005 is below min_edge,
so the sizer returns None. -/
theorem kelly_sizer_spec_witness :
    KellyPositionSizer.calculate_position_size ⟨1 / 4, 1, 1 / 50⟩ 1000 (1 / 2)
      ⟨101 / 200, 1⟩ = none := by
  exact (kelly_sizer_spec.1 ⟨1 / 4, 1, 1 / 50⟩ 1000 (1 / 2) (101 / 200) 1
    (by norm_num) (by norm_num) (by norm_num)).mpr
    (Or.inl (by norm_num [abs_of_nonneg]))

-- ===========================================================================
-- Concrete fixtures for the risk-pipeline scenarios
-- ===========================================================================

/-- Baseline risk config: quarter Kelly, min_edge 0.02, per-market 200,
portfolio 10000, pct 100 percent, min trade size 1, drawdown gate disabled. -/
def demo_cfg : RiskConfig := ⟨1 / 4, 1 / 50, 200, 10000, 1, 100000, 10, 1000000, 1, 0, 1⟩

def demo_cb : CircuitBreaker := (CircuitBreaker.new 1000000 1).init 5000

def demo_st : BotState := ⟨5000, [], [], []⟩

/-- The spec scenario signal: buy 500 contracts at 0.50. -/
def demo_buy : Signal := ⟨"m", .buyYes, 1 / 2, 500, .medium, 1, none⟩

/-- A config whose portfolio absolute limit (100) is tighter than its
per-market limit (200). -/
def tight_cfg : RiskConfig := ⟨1 / 4, 1 / 50, 200, 100, 10, 100000, 10, 1000000, 1, 0, 1⟩

/-- Balance 1000 with an existing 90-notional position in a different market
(no market row, so marking falls back to cost basis). -/
def other_pos_st : BotState := ⟨1000, [], [("other:YES", ⟨"other", .yes, 90, 1⟩)], []⟩

def tight_cb : CircuitBreaker := (CircuitBreaker.new 1000000 1).init 1090

/-- Counterexample to C3 as stated: with per-market 200 but portfolio limit
100 and 90 already deployed elsewhere, the per-market check fails first and
its returned headroom (200) ignores the portfolio headroom (10), so the
resized buy is approved at notional 200 — violating the portfolio limit. -/
theorem exposure_resize_counterexample :
    (evaluate_signal tight_cfg [] 1090 tight_cb other_pos_st demo_buy).2 =
      ⟨true, some { demo_buy with quantity := 400 }, "Approved"⟩
    ∧ total_exposure other_pos_st + demo_buy.price * 400 >
        tight_cfg.max_portfolio_exposure := by
  constructor
  · have h1 : market_exposure other_pos_st "m" = 0 := by
      simp [market_exposure, other_pos_st, position_key, Side.str, mapGet, List.lookup]
    have h2 : total_exposure other_pos_st = 90 := by
      norm_num [total_exposure, get_total_position_value, other_pos_st, mark_to_market,
        PositionState.cost_basis, mapGet, List.lookup]
    have h3 : get_total_equity other_pos_st = 1090 := by
      norm_num [get_total_equity, other_pos_st, mark_to_market, PositionState.cost_basis,
        mapGet, List.lookup]
    have h4 : get_position other_pos_st "m" = none := by
      simp [get_position, other_pos_st, position_key, Side.str, mapGet, List.lookup,
        Option.orElse]
    have h5 : get_balance other_pos_st = 1000 := rfl
    norm_num +decide [evaluate_signal, tight_cfg, tight_cb, demo_buy,
      CircuitBreaker.update, CircuitBreaker.init, CircuitBreaker.new,
      SignalAction.is_cancel, SignalAction.is_sell, SignalAction.is_buy,
      is_new_buy_blocked_by_drawdown, can_add_exposure, correlation_check,
      RiskConfig.exposure, RiskConfig.sizer, h1, h2, h3, h4, h5]
  · norm_num [total_exposure, get_total_position_value, other_pos_st, demo_buy,
      tight_cfg, mark_to_market, PositionState.cost_basis, mapGet, List.lookup]

/-- Claim C3, amended: the concrete per-market scenario holds (per-market 200,
balance 5000, no prior position, buy 500 at 0.50 is approved clamped to 400
contracts, i.e. notional 200); the exposure check reports, on the first
failing limit, only the headrooms of the checks performed so far (per-market
failure reports the per-market headroom alone; the fully-allowed case reports
min of per-market and portfolio headrooms, without the correlation headroom);
the risk manager then clamps by the minimum of that headroom and the
portfolio-pct headroom, so limits ordered after the first failing check can
still be exceeded by the resized quantity. -/
theorem exposure_resize_amended_spec :
    ((evaluate_signal demo_cfg [] 5000 demo_cb demo_st demo_buy).2 =
      ⟨true, some { demo_buy with quantity := 400 }, "Approved"⟩
    ∧ (400 : Money) * (1 / 2) ≤ 200)
    ∧ (∀ (cfg : ExposureConfig) (groups : List (String × List String)) (st : BotState)
        (slug : String) (n : Money),
        market_exposure st slug + n > cfg.max_position_per_market →
        can_add_exposure cfg groups st slug n =
          ⟨false, "Per-market limit",
            max (cfg.max_position_per_market - market_exposure st slug) 0⟩)
    ∧ (∀ (cfg : ExposureConfig) (groups : List (String × List String)) (st : BotState)
        (slug : String) (n : Money),
        ¬ market_exposure st slug + n > cfg.max_position_per_market →
        ¬ total_exposure st + n > cfg.max_portfolio_exposure →
        ¬ ((get_position st slug).isNone = true ∧ position_count st ≥ cfg.max_positions) →
        correlation_check cfg st slug n
          (cfg.max_position_per_market - market_exposure st slug)
          (cfg.max_portfolio_exposure - total_exposure st) groups = none →
        can_add_exposure cfg groups st slug n =
          ⟨true, "OK", max (min (cfg.max_position_per_market - market_exposure st slug)
            (cfg.max_portfolio_exposure - total_exposure st)) 0⟩) := by
  refine ⟨⟨?_, by norm_num⟩, ?_, ?_⟩
  · norm_num +decide [evaluate_signal, demo_cfg, demo_cb, demo_st, demo_buy,
      CircuitBreaker.update, CircuitBreaker.init, CircuitBreaker.new, get_total_equity,
      get_balance, SignalAction.is_cancel, SignalAction.is_sell, SignalAction.is_buy,
      is_new_buy_blocked_by_drawdown, can_add_exposure, correlation_check,
      market_exposure, total_exposure, get_total_position_value, get_position,
      position_key, Side.str, mapGet, RiskConfig.exposure, RiskConfig.sizer,
      position_count, mark_to_market, PositionState.cost_basis,
      List.lookup, List.filter, List.map, List.sum, List.foldl,
      Option.map, Option.getD, Option.orElse, Option.isNone]
  · intro cfg groups st slug n h
    unfold can_add_exposure
    rw [if_pos h]
  · intro cfg groups st slug n h1 h2 h3 h4
    unfold can_add_exposure
    rw [if_neg h1, if_neg h2, if_neg h3, h4]

/-- Witness for C3 (amended): the per-market-failure conjunct applied to the
counterexample state — current exposure 0 plus 250 exceeds the 200 limit, so
the check reports headroom 200. -/
theorem exposure_resize_amended_spec_witness :
    can_add_exposure demo_cfg.exposure [] demo_st "m" 250 =
      ⟨false, "Per-market limit",
        max (demo_cfg.exposure.max_position_per_market - market_exposure demo_st "m") 0⟩ := by
  exact exposure_resize_amended_spec.2.1 demo_cfg.exposure [] demo_st "m" 250
    (by norm_num [market_exposure, demo_st, demo_cfg, RiskConfig.exposure, mapGet,
      position_key, Side.str])

def tripped_cb : CircuitBreaker := ((CircuitBreaker.new 100 (1 / 2)).init 1000).emergency_stop

/-- A sell of 1 contract at 0.01: notional 0.01, far below min_trade_size 1. -/
def tiny_sell : Signal := ⟨"m", .sellYes, 1 / 100, 1, .low, 1, none⟩

/-- Counterexample to C4 as stated: while the circuit breaker is tripped, a
sell is approved unchanged with no minimum-trade-size check, so a sell with
notional 0.01 is approved although min_trade_size is 1. -/
theorem min_trade_size_counterexample :
    (evaluate_signal demo_cfg [] 1000 tripped_cb ⟨1000, [], [], []⟩ tiny_sell).2 =
      ⟨true, some tiny_sell, "Approved: circuit breaker allows exits"⟩
    ∧ tiny_sell.price * tiny_sell.quantity < demo_cfg.min_trade_size := by
  constructor
  · norm_num +decide [evaluate_signal, demo_cfg, tripped_cb, tiny_sell,
      CircuitBreaker.update, CircuitBreaker.init, CircuitBreaker.new,
      CircuitBreaker.emergency_stop, get_total_equity,
      SignalAction.is_cancel, SignalAction.is_sell]
  · norm_num [tiny_sell, demo_cfg]

set_option maxHeartbeats 1000000 in
/-- Claim C4, amended: every approved signal that is not a cancel and is not
a sell passed through while the circuit breaker (after the equity refresh) is
tripped carries notional price times quantity of at least min_trade_size. -/
theorem min_trade_size_amended_spec (cfg : RiskConfig)
    (groups : List (String × List String)) (starting_equity : Money)
    (cb : CircuitBreaker) (st : BotState) (s : Signal)
    (hc : s.action.is_cancel = false)
    (hT : (cb.update (get_total_equity st)).tripped = false) :
    (evaluate_signal cfg groups starting_equity cb st s).2.approved = true →
    ∃ s2, (evaluate_signal cfg groups starting_equity cb st s).2.signal = some s2 ∧
      cfg.min_trade_size ≤ s2.price * s2.quantity := by
  unfold evaluate_signal
  simp only [hc, Bool.false_eq_true, if_false, hT]
  repeat' split
  all_goals intro h
  all_goals first
    | exact Bool.noConfusion h
    | exact ⟨_, rfl, by linarith⟩

/-- Witness for C4 (amended) at the concrete resize scenario: the approved
buy has notional 200, at least the min trade size 1. -/
theorem min_trade_size_amended_spec_witness :
    ∃ s2, (evaluate_signal demo_cfg [] 5000 demo_cb demo_st demo_buy).2.signal = some s2 ∧
      demo_cfg.min_trade_size ≤ s2.price * s2.quantity := by
  refine min_trade_size_amended_spec demo_cfg [] 5000 demo_cb demo_st demo_buy
    (by decide) ?_ ?_
  · norm_num +decide [demo_cb, demo_st, CircuitBreaker.update, CircuitBreaker.init,
      CircuitBreaker.new, get_total_equity]
  · norm_num +decide [evaluate_signal, demo_cfg, demo_cb, demo_st, demo_buy,
      CircuitBreaker.update, CircuitBreaker.init, CircuitBreaker.new, get_total_equity,
      get_balance, SignalAction.is_cancel, SignalAction.is_sell, SignalAction.is_buy,
      is_new_buy_blocked_by_drawdown, can_add_exposure, correlation_check,
      market_exposure, total_exposure, get_total_position_value, get_position,
      position_key, Side.str, mapGet, RiskConfig.exposure, RiskConfig.sizer,
      position_count, mark_to_market, PositionState.cost_basis,
      List.lookup, List.filter, List.map, List.sum, List.foldl,
      Option.map, Option.getD, Option.orElse, Option.isNone]

/-- Claim C5: the per-market completeness-arb check emits exactly when both
top-of-book asks are present, combined = yes_ask + no_ask < 1 (strict), and
net = (1 − combined) − combined·0.001 > min_margin (strict), with the signal
carrying exactly that gross and net; the scanner is that check filter-mapped
over the tracked tops; at yes_ask 0.50, no_ask 0.45 it emits combined 0.95,
gross 0.05, net 0.04905 with min_margin 0.01. -/
theorem completeness_arb_spec :
    (∀ (min_margin : Money) (slug : String) (top : TopOfBook)
      (sig : CompletenessArbSignal),
      scan_entry min_margin slug top = some sig ↔
        ∃ ya na, top.yes_best_ask = some ya ∧ top.no_best_ask = some na ∧
          ya + na < 1 ∧ (1 - (ya + na)) - (ya + na) * (1 / 1000) > min_margin ∧
          sig = ⟨slug, ya, na, ya + na, 1 - (ya + na),
            (1 - (ya + na)) - (ya + na) * (1 / 1000)⟩)
    ∧ (∀ (t : TrackerInner) (min_margin : Money) (sig : CompletenessArbSignal),
        sig ∈ scan_completeness_arb t min_margin ↔
          ∃ e, e ∈ t.tops ∧ scan_entry min_margin e.1 e.2 = some sig)
    ∧ scan_entry (1 / 100) "m" ⟨none, some (1 / 2), none, some (9 / 20)⟩ =
        some ⟨"m", 1 / 2, 9 / 20, 19 / 20, 1 / 20, 981 / 20000⟩ := by
  refine ⟨?_, ?_, ?_⟩
  · intro mm slug top sig
    obtain ⟨yb, ya, nb, na⟩ := top
    cases ya with
    | none => simp [scan_entry, TopOfBook.completeness_sum]
    | some a =>
      cases na with
      | none => simp [scan_entry, TopOfBook.completeness_sum]
      | some b =>
        simp only [scan_entry, TopOfBook.completeness_sum]
        by_cases h1 : a + b ≥ 1
        · simp [h1, not_lt.mpr h1]
        · rw [if_neg h1]
          by_cases h2 : (1 - (a + b)) - (a + b) * (1 / 1000) > mm
          · rw [if_pos h2]
            constructor
            · intro h
              exact ⟨a, b, rfl, rfl, not_le.mp h1, h2, (Option.some_inj.mp h).symm⟩
            · rintro ⟨ya, na, hya, hna, _, _, hsig⟩
              rw [Option.some_inj] at hya hna
              subst hya
              subst hna
              rw [hsig]
          · rw [if_neg h2]
            constructor
            · intro h
              exact Option.noConfusion h
            · rintro ⟨ya, na, hya, hna, h3, h4, hsig⟩
              rw [Option.some_inj] at hya hna
              subst hya
              subst hna
              exact absurd h4 h2
  · intro t mm sig
    simp [scan_completeness_arb, List.mem_filterMap]
  · norm_num +decide [scan_entry, TopOfBook.completeness_sum]

/-- Witness for C5: instantiating the emission characterization at the
concrete top with yes_ask 0.50, no_ask 0.45 and min_margin 0.01. -/
theorem completeness_arb_spec_witness :
    ∃ ya na,
      (⟨none, some (1 / 2), none, some (9 / 20)⟩ : TopOfBook).yes_best_ask = some ya ∧
      (⟨none, some (1 / 2), none, some (9 / 20)⟩ : TopOfBook).no_best_ask = some na ∧
      ya + na < 1 ∧ (1 - (ya + na)) - (ya + na) * (1 / 1000) > 1 / 100 ∧
      (⟨"m", 1 / 2, 9 / 20, 19 / 20, 1 / 20, 981 / 20000⟩ : CompletenessArbSignal) =
        ⟨"m", ya, na, ya + na, 1 - (ya + na), (1 - (ya + na)) - (ya + na) * (1 / 1000)⟩ :=
  (completeness_arb_spec.1 (1 / 100) "m" _ _).mp completeness_arb_spec.2.2

/-- Claim C6: buying Q contracts filled at price P and immediately selling the
same Q filled at the same P in the paper executor leaves the position removed
(both from the executor's internal book-keeping and from the state store) and
the balance lower by exactly twice the per-fill fee P·Q·fee_rate, since a buy
fill deducts notional + fee and a sell fill adds notional − fee. -/
theorem paper_round_trip_spec (ex : PaperExecutor) (slug : String) (side : Side)
    (P : Money) (Q : Int) (oid1 oid2 : String)
    (hq : 0 < Q)
    (hpos : mapGet ex.positions (position_key slug side) = none) :
    ((ex.record_fill oid1 slug side true P Q).1.record_fill oid2 slug side
        false P Q).1.state.balance
      = ex.state.balance - 2 * (P * Q * ex.fee_rate)
    ∧ mapGet ((ex.record_fill oid1 slug side true P Q).1.record_fill oid2 slug side
        false P Q).1.positions (position_key slug side) = none
    ∧ get_position_for_side ((ex.record_fill oid1 slug side true P Q).1.record_fill
        oid2 slug side false P Q).1.state slug side = none := by
  have hq2 : ¬ (Q ≤ 0) := not_le.mpr hq
  refine ⟨?_, ?_, ?_⟩
  · simp [PaperExecutor.record_fill, PaperPosition.new, PaperPosition.add,
      PaperPosition.reduce, hpos, mapGet_mapInsert_self,
      update_position, update_balance, remove_position, hq, hq2, mapGet_mapRemove_self]
    ring
  · simp [PaperExecutor.record_fill, PaperPosition.new, PaperPosition.add,
      PaperPosition.reduce, hpos, mapGet_mapInsert_self,
      update_position, update_balance, remove_position, hq, hq2, mapGet_mapRemove_self]
  · cases side <;>
      simp [PaperExecutor.record_fill, PaperPosition.new, PaperPosition.add,
        PaperPosition.reduce, hpos, mapGet_mapInsert_self,
        update_position, update_balance, remove_position, get_position_for_side,
        hq, hq2, mapGet_mapRemove_self,
        mapGet_mapRemove_of_none _ _ _ (mapGet_mapRemove_self _ _)]

/-- Witness for C6: a concrete round trip — buy 30 at 0.40 then sell 30 at
0.40 on a fresh executor with balance 1000 and fee rate 0.001. -/
theorem paper_round_trip_spec_witness :
    (((⟨⟨1000, [], [], []⟩, [], 1000, [], [], [], ⟨0, 0, 0, 0, 1000, 0, 0, 0⟩, 1,
        1 / 1000, 1 / 2000⟩ : PaperExecutor).record_fill "a" "mm" .yes true (2 / 5)
        30).1.record_fill "b" "mm" .yes false (2 / 5) 30).1.state.balance
      = 1000 - 2 * ((2 / 5) * 30 * (1 / 1000)) := by
  have h := paper_round_trip_spec
    ⟨⟨1000, [], [], []⟩, [], 1000, [], [], [], ⟨0, 0, 0, 0, 1000, 0, 0, 0⟩, 1,
      1 / 1000, 1 / 2000⟩ "mm" .yes (2 / 5) 30 "a" "b" (by decide) (by rfl)
  exact h.1

-- ===========================================================================
-- Helper lemmas: book walking
-- ===========================================================================

theorem sum_quantity_nonneg (levels : List PriceLevel)
    (h : ∀ l ∈ levels, 0 ≤ l.quantity) : 0 ≤ (levels.map PriceLevel.quantity).sum := by
  induction levels with
  | nil => simp
  | cons l ls ih =>
    simp only [List.map_cons, List.sum_cons]
    have h1 := h l (List.mem_cons_self l ls)
    have h2 := ih (fun x hx => h x (List.mem_cons_of_mem l hx))
    omega

theorem walk_levels_go_filled (req : Int) :
    ∀ (levels : List PriceLevel) (f : Int) (c : Money),
      f ≤ req → (∀ l ∈ levels, 0 ≤ l.quantity) →
      (walk_levels_go levels req f c).1 =
        min req (f + (levels.map PriceLevel.quantity).sum) := by
  intro levels
  induction levels with
  | nil =>
    intro f c hf _
    simp [walk_levels_go, min_eq_right hf]
  | cons l ls ih =>
    intro f c hf hq
    have h1 := hq l (List.mem_cons_self l ls)
    have h2 : ∀ x ∈ ls, 0 ≤ x.quantity := fun x hx => hq x (List.mem_cons_of_mem l hx)
    have hs := sum_quantity_nonneg ls h2
    simp only [walk_levels_go, List.map_cons, List.sum_cons]
    by_cases hge : f ≥ req
    · rw [if_pos hge]
      simp only
      omega
    · rw [if_neg hge]
      have hf2 : f + min l.quantity (req - f) ≤ req := by omega
      rw [ih _ _ hf2 h2]
      omega

theorem walk_levels_filled (levels : List PriceLevel) (req : Int)
    (hreq : 0 ≤ req) (hq : ∀ l ∈ levels, 0 ≤ l.quantity) :
    (walk_levels levels req).1 = min req ((levels.map PriceLevel.quantity).sum) := by
  unfold walk_levels
  have h := walk_levels_go_filled req levels 0 0 hreq hq
  rcases hr : walk_levels_go levels req 0 0 with ⟨fq, c⟩
  rw [hr] at h
  simp only at h
  by_cases h0 : fq = 0 <;> simp [hr, h0] <;> omega

-- ===========================================================================
-- Paper market order fixtures (spec scenario 4)
-- ===========================================================================

/-- YES book with bids [(0.50,100),(0.49,200)] and asks [(0.52,100),(0.53,200)]. -/
def demo_book : OrderBook :=
  ⟨"test-market",
   ⟨[⟨1 / 2, 100⟩, ⟨49 / 100, 200⟩], [⟨52 / 100, 100⟩, ⟨53 / 100, 200⟩]⟩,
   ⟨[], []⟩⟩

/-- Fresh paper executor with balance 1000, default fee 10 bps and slippage
5 bps, tracking demo_book. -/
def demo_paper_ex : PaperExecutor :=
  ⟨⟨1000, [], [], []⟩, [("test-market", demo_book)], 1000, [], [], [],
   ⟨0, 0, 0, 0, 1000, 0, 0, 0⟩, 1, 1 / 1000, 1 / 2000⟩

/-- Critical-urgency buy of 500 contracts, signal price 0.55. -/
def demo_market_buy : Signal := ⟨"test-market", .buyYes, 11 / 20, 500, .critical, 8 / 10, none⟩

/-- Counterexample to C7 as stated: the market buy fills 300 contracts with
status PartiallyFilled, but the recorded fill price is not the bare VWAP
158/300 ≈ 0.52667 — the executor applies slippage on top of it. -/
theorem market_buy_vwap_counterexample :
    (demo_paper_ex.execute_signal demo_market_buy).2.filled_quantity = 300
    ∧ (demo_paper_ex.execute_signal demo_market_buy).2.status = .partiallyFilled
    ∧ (demo_paper_ex.execute_signal demo_market_buy).2.avg_fill_price ≠ some (158 / 300)
    ∧ (demo_paper_ex.execute_signal demo_market_buy).2.avg_fill_price ≠
        some (52667 / 100000) := by
  have h : (demo_paper_ex.execute_signal demo_market_buy).2 =
      ⟨"paper-1", .partiallyFilled, 300, some ((158 / 300) * (1 + 1 / 2000)),
        (158 / 300) * (1 + 1 / 2000) * 300 * (1 / 1000), none⟩ := by
    norm_num +decide [PaperExecutor.execute_signal, PaperExecutor.execute_market_order,
      PaperExecutor.execute_limit_order, PaperExecutor.walk_asks_with_slippage,
      PaperExecutor.walk_bids_with_slippage, walk_levels, walk_levels_go,
      sort_by_price_asc, insert_by_price_asc, PaperExecutor.record_fill,
      PaperPosition.new, PaperPosition.add, PaperPosition.reduce,
      PaperExecutor.cancel_all, demo_paper_ex, demo_book, demo_market_buy,
      SignalAction.is_cancel, SignalAction.is_buy, SignalAction.is_sell,
      SignalAction.to_intent, OrderIntent.side, OrderIntent.is_buy,
      mapGet, mapInsert, mapRemove, List.lookup, position_key, Side.str,
      update_position, update_balance, remove_position, add_order,
      get_total_equity, mark_to_market, PositionState.cost_basis,
      PaperPerformance.update_drawdown, List.filter, List.map, List.sum,
      Option.getD, Option.map]
  rw [h]
  refine ⟨rfl, rfl, ?_, ?_⟩ <;> (simp; try norm_num)

set_option maxHeartbeats 1000000 in
/-- Claim C7, amended: the market buy against yes asks [(0.52,100),(0.53,200)]
with request 500 at Critical urgency fills 300 contracts with status
PartiallyFilled at recorded price VWAP·(1 + slippage) where the VWAP of the
walked levels is 158/300 ≈ 0.52667 and slippage is 5 bps; in general the book
walk fills min(requested, total book depth). -/
theorem market_buy_vwap_amended_spec :
    ((demo_paper_ex.execute_signal demo_market_buy).2.filled_quantity = 300
    ∧ (demo_paper_ex.execute_signal demo_market_buy).2.status = .partiallyFilled
    ∧ (demo_paper_ex.execute_signal demo_market_buy).2.avg_fill_price =
        some ((158 / 300) * (1 + 1 / 2000))
    ∧ walk_levels (sort_by_price_asc demo_book.yes.asks) 500 = (300, 158 / 300))
    ∧ (∀ (levels : List PriceLevel) (req : Int),
        0 ≤ req → (∀ l ∈ levels, 0 ≤ l.quantity) →
        (walk_levels levels req).1 = min req ((levels.map PriceLevel.quantity).sum)) := by
  constructor
  · have h : (demo_paper_ex.execute_signal demo_market_buy).2 =
        ⟨"paper-1", .partiallyFilled, 300, some ((158 / 300) * (1 + 1 / 2000)),
          (158 / 300) * (1 + 1 / 2000) * 300 * (1 / 1000), none⟩ := by
      norm_num +decide [PaperExecutor.execute_signal, PaperExecutor.execute_market_order,
        PaperExecutor.execute_limit_order, PaperExecutor.walk_asks_with_slippage,
        PaperExecutor.walk_bids_with_slippage, walk_levels, walk_levels_go,
        sort_by_price_asc, insert_by_price_asc, PaperExecutor.record_fill,
        PaperPosition.new, PaperPosition.add, PaperPosition.reduce,
        PaperExecutor.cancel_all, demo_paper_ex, demo_book, demo_market_buy,
        SignalAction.is_cancel, SignalAction.is_buy, SignalAction.is_sell,
        SignalAction.to_intent, OrderIntent.side, OrderIntent.is_buy,
        mapGet, mapInsert, mapRemove, List.lookup, position_key, Side.str,
        update_position, update_balance, remove_position, add_order,
        get_total_equity, mark_to_market, PositionState.cost_basis,
        PaperPerformance.update_drawdown, List.filter, List.map, List.sum,
        Option.getD, Option.map]
    rw [h]
    refine ⟨rfl, rfl, rfl, ?_⟩
    norm_num +decide [walk_levels, walk_levels_go, sort_by_price_asc,
      insert_by_price_asc, demo_book]
  · exact walk_levels_filled

/-- Witness for C7 (amended): the depth-limit conjunct applied to a one-level
book of 3 contracts with a request for 5 fills min(5, 3) = 3. -/
theorem market_buy_vwap_amended_spec_witness :
    (walk_levels [⟨1 / 2, 3⟩] 5).1 = min 5 (([⟨(1 : Money) / 2, 3⟩] :
      List PriceLevel).map PriceLevel.quantity).sum := by
  exact market_buy_vwap_amended_spec.2 [⟨1 / 2, 3⟩] 5 (by omega)
    (by intro l hl; simp at hl; simp [hl])

-- ===========================================================================
-- Position-key frame fixtures (C8)
-- ===========================================================================

/-- State store holding both a YES position (5 @ 0.50) and a NO position
(7 @ 0.30) in market m. -/
def two_sided_st : BotState :=
  ⟨100, [], [("m:YES", ⟨"m", .yes, 5, 1 / 2⟩), ("m:NO", ⟨"m", .no, 7, 3 / 10⟩)], []⟩

/-- Paper executor tracking the same two positions internally. -/
def two_sided_ex : PaperExecutor :=
  ⟨two_sided_st, [], 100,
   [("m:YES", ⟨.yes, 5, 1 / 2, 5 / 2⟩), ("m:NO", ⟨.no, 7, 3 / 10, 21 / 10⟩)],
   [], [], ⟨0, 0, 0, 0, 100, 0, 0, 0⟩, 1, 1 / 1000, 1 / 2000⟩

/-- Claim C8 is right and the code is wrong: a sell fill that closes the YES
position calls StateManager::remove_position, which deletes BOTH sides, so the
NO position (quantity 7, far from 0) disappears from the state store even
though the executor's internal map still holds it. -/
theorem position_key_frame_bug :
    get_position_for_side two_sided_st "m" .no = some ⟨"m", .no, 7, 3 / 10⟩
    ∧ get_position_for_side (two_sided_ex.record_fill "o1" "m" .yes false (1 / 2)
        5).1.state "m" .no = none
    ∧ mapGet (two_sided_ex.record_fill "o1" "m" .yes false (1 / 2) 5).1.positions
        (position_key "m" .no) = some ⟨.no, 7, 3 / 10, 21 / 10⟩ := by
  have hb1 : ("m" ++ ":" ++ "NO" == "m:NO") = true := by decide
  have hb2 : ("m" ++ ":" ++ "NO" == "m:YES") = false := by decide
  have hb3 : ("m" ++ ":" ++ "YES" == "m:YES") = true := by decide
  have hb4 : ("m" ++ ":" ++ "YES" == "m:NO") = false := by decide
  refine ⟨by rfl, ?_, ?_⟩ <;>
    norm_num +decide [PaperExecutor.record_fill, PaperPosition.new, PaperPosition.add,
      PaperPosition.reduce, two_sided_ex, two_sided_st, mapGet, mapInsert, mapRemove,
      List.lookup, List.filter, position_key, Side.str, update_position, update_balance,
      remove_position, get_position_for_side, get_total_equity, mark_to_market,
      PositionState.cost_basis, PaperPerformance.update_drawdown, List.map, List.sum,
      Option.getD, Option.map, hb1, hb2, hb3, hb4]

-- ===========================================================================
-- Market-maker stop-loss theorems (C9)
-- ===========================================================================

/-- Stop-loss config: stop 15 percent, aggressive 10 percent, max hold 600 s. -/
def demo_mm_cfg : MarketMakerConfig := ⟨15 / 100, 10 / 100, 600⟩

/-- NO position, 10 contracts at average 0.50. -/
def demo_no_pos : PositionState := ⟨"m", .no, 10, 1 / 2⟩

/-- Market with yes_ask 0.80, so the NO effective close is 0.20 (down 60
percent from the 0.50 entry). -/
def demo_no_mkt : MarketState := ⟨"m", "t", some (75 / 100), some (8 / 10), none, none⟩

/-- Counterexample to C9 as stated: a NO position whose stop-loss triggers
emits a BuyYes signal — a buy, not a sell. -/
theorem stop_loss_sell_counterexample :
    (check_stop_loss demo_mm_cfg [] demo_no_pos demo_no_mkt 0).1.map Signal.action =
      [SignalAction.buyYes]
    ∧ SignalAction.is_sell .buyYes = false := by
  constructor
  · norm_num +decide [check_stop_loss, demo_mm_cfg, demo_no_pos, demo_no_mkt,
      clamp_price, Option.map, List.map]
  · rfl

/-- Claim C9, amended: whenever the exit price is available, the entry price
is positive and one of the stop-loss conditions holds (pnl ≤ −aggressive, or
pnl ≤ −stop, or age ≥ max hold with pnl < 0), the market maker emits exactly
one full-quantity High-urgency exit signal — SellYes for YES positions,
BuyYes for NO positions at the clamped yes_ask with effective close
1 − yes_ask — and records the slug in the stop-loss cooldown map; otherwise
it emits nothing and the cooldown map is unchanged. -/
theorem stop_loss_amended_spec (cfg : MarketMakerConfig) (cooldowns : List String)
    (position : PositionState) (market : MarketState) (age_seconds : Int)
    (ep ecp pnl : Money)
    (hep : (match position.side with
      | .yes => market.yes_bid
      | .no => market.yes_ask) = some ep)
    (hecp : ecp = match position.side with | .yes => ep | .no => 1 - ep)
    (havg : 0 < position.avg_price)
    (hpnl : pnl = (ecp - position.avg_price) / position.avg_price) :
    ((pnl ≤ -cfg.aggressive_stop_loss_pct ∨ pnl ≤ -cfg.stop_loss_pct ∨
        (age_seconds ≥ cfg.max_underwater_hold_seconds ∧ pnl < 0)) →
      check_stop_loss cfg cooldowns position market age_seconds =
        ([{ market_slug := position.market_slug,
            action := match position.side with | .yes => .sellYes | .no => .buyYes,
            price := clamp_price ep, quantity := position.quantity, urgency := .high,
            confidence := 95 / 100, true_probability := none }],
         position.market_slug :: cooldowns))
    ∧ (¬ (pnl ≤ -cfg.aggressive_stop_loss_pct ∨ pnl ≤ -cfg.stop_loss_pct ∨
        (age_seconds ≥ cfg.max_underwater_hold_seconds ∧ pnl < 0)) →
      check_stop_loss cfg cooldowns position market age_seconds = ([], cooldowns)) := by
  subst hecp
  subst hpnl
  cases hside : position.side
  case yes =>
    rw [hside] at hep
    dsimp only at hep
    dsimp only
    constructor
    · intro htrig
      simp only [check_stop_loss, hside, hep, Option.map, if_pos havg, if_pos htrig]
    · intro htrig
      simp only [check_stop_loss, hside, hep, Option.map, if_pos havg, if_neg htrig]
  case no =>
    rw [hside] at hep
    dsimp only at hep
    dsimp only
    constructor
    · intro htrig
      simp only [check_stop_loss, hside, hep, Option.map, if_pos havg, if_pos htrig]
    · intro htrig
      simp only [check_stop_loss, hside, hep, Option.map, if_pos havg, if_neg htrig]

/-- Witness for C9 (amended): a YES position 4 @ 0.50 with yes_bid 0.40 is
down 20 percent, beyond the 10 percent aggressive stop, so a SellYes for the
full 4 contracts is emitted and the slug recorded. -/
theorem stop_loss_amended_spec_witness :
    check_stop_loss demo_mm_cfg [] ⟨"m", .yes, 4, 1 / 2⟩
      ⟨"m", "t", some (2 / 5), none, none, none⟩ 0 =
      ([{ market_slug := "m", action := .sellYes, price := clamp_price (2 / 5),
          quantity := 4, urgency := .high, confidence := 95 / 100,
          true_probability := none }], ["m"]) := by
  exact (stop_loss_amended_spec demo_mm_cfg [] ⟨"m", .yes, 4, 1 / 2⟩
    ⟨"m", "t", some (2 / 5), none, none, none⟩ 0 (2 / 5) (2 / 5) (-(1 / 5))
    rfl rfl (by norm_num) (by norm_num [demo_mm_cfg])).1
    (Or.inl (by norm_num [demo_mm_cfg]))

-- ===========================================================================
-- REST retry loop theorems (C10)
-- ===========================================================================

theorem request_go_congr (mr : Nat) (o1 o2 : Nat → AttemptOutcome) :
    ∀ (rem attempt : Nat) (last : Option ApiError) (sleeps : List Nat),
      (∀ i, attempt ≤ i → i < attempt + rem → o1 i = o2 i) →
      request_go mr o1 rem attempt last sleeps =
        request_go mr o2 rem attempt last sleeps := by
  intro rem
  induction rem with
  | zero =>
    intro attempt last sleeps _
    rfl
  | succ r ih =>
    intro attempt last sleeps h
    have h0 : o1 attempt = o2 attempt := h attempt le_rfl (by omega)
    have h2 : ∀ i, attempt + 1 ≤ i → i < attempt + 1 + r → o1 i = o2 i :=
      fun i hi1 hi2 => h i (by omega) (by omega)
    simp only [request_go, h0]
    cases ho : o2 attempt with
    | ok _ => rfl
    | okBodyReadError _ => rfl
    | okUnparseable _ => rfl
    | rateLimited ra => exact ih (attempt + 1) _ _ h2
    | serverError st => exact ih (attempt + 1) _ _ h2
    | clientError st b => rfl
    | transportTimeout m => exact ih (attempt + 1) _ _ h2
    | transportError m => exact ih (attempt + 1) _ _ h2

theorem request_go_all_429 (mr : Nat) (o : Nat → AttemptOutcome)
    (ho : ∀ i, o i = .rateLimited none) :
    ∀ (rem attempt : Nat) (sleeps : List Nat), 0 < rem →
      ∀ last, (request_go mr o rem attempt last sleeps).1 = .error (.rateLimited 1) := by
  intro rem
  induction rem with
  | zero =>
    intro attempt sleeps h
    omega
  | succ r ih =>
    intro attempt sleeps _ last
    simp only [request_go, ho attempt, Option.getD]
    by_cases hr : 0 < r
    · exact ih (attempt + 1) _ hr _
    · have hr0 : r = 0 := by omega
      subst hr0
      rfl

/-- Claim C10, amended: the request loop consults at most max_retries attempt
outcomes (counting the first); a 429 sleeps Retry-After seconds (default 1)
and retries rather than terminating; once the budget is exhausted the client
returns the LAST OBSERVED ERROR itself, not wrapped — MaxRetriesExceeded
(carrying the placeholder text) is produced only when no attempt ran, i.e.
max_retries = 0; in particular a run of nothing but 429s ends in RateLimited,
never MaxRetriesExceeded. -/
theorem retry_amended_spec :
    (∀ (max_retries : Nat) (o1 o2 : Nat → AttemptOutcome),
      (∀ i, i < max_retries → o1 i = o2 i) →
      request max_retries o1 = request max_retries o2)
    ∧ (∀ (max_retries rem attempt : Nat) (o : Nat → AttemptOutcome)
        (last : Option ApiError) (sleeps : List Nat) (ra : Option Nat),
        o attempt = .rateLimited ra →
        request_go max_retries o (rem + 1) attempt last sleeps =
          request_go max_retries o rem (attempt + 1)
            (some (.rateLimited (ra.getD 1))) (sleeps ++ [ra.getD 1 * 1000]))
    ∧ (∀ (max_retries attempt : Nat) (o : Nat → AttemptOutcome) (e : ApiError)
        (sleeps : List Nat),
        request_go max_retries o 0 attempt (some e) sleeps = (.error e, sleeps))
    ∧ (∀ (max_retries attempt : Nat) (o : Nat → AttemptOutcome) (sleeps : List Nat),
        request_go max_retries o 0 attempt none sleeps =
          (.error (.maxRetriesExceeded max_retries "Unknown error"), sleeps))
    ∧ (∀ (max_retries : Nat) (o : Nat → AttemptOutcome),
        0 < max_retries → (∀ i, o i = .rateLimited none) →
        (request max_retries o).1 = .error (.rateLimited 1)) := by
  refine ⟨?_, ?_, ?_, ?_, ?_⟩
  · intro mr o1 o2 h
    exact request_go_congr mr o1 o2 mr 0 none [] (fun i hi1 hi2 => h i (by omega))
  · intro mr rem attempt o last sleeps ra h
    simp only [request_go, h]
  · intro mr attempt o e sleeps
    rfl
  · intro mr attempt o sleeps
    rfl
  · intro mr o hmr ho
    exact request_go_all_429 mr o ho mr 0 [] hmr none

/-- Witness for C10 (amended): two attempts of nothing but 429 end in the
unwrapped RateLimited error. -/
theorem retry_amended_spec_witness :
    (request 2 (fun _ => .rateLimited none)).1 = .error (.rateLimited 1) :=
  retry_amended_spec.2.2.2.2 2 (fun _ => .rateLimited none) (by omega) (fun _ => rfl)

/-- Counterexample to C10 as stated: three attempts of 429 exhaust the budget
and the client returns RateLimited itself — the last observed error is NOT
wrapped as MaxRetriesExceeded. -/
theorem retry_wrap_counterexample :
    request 3 (fun _ => .rateLimited none) =
      (.error (.rateLimited 1), [1000, 1000, 1000])
    ∧ (ApiError.rateLimited 1).is_max_retries_exceeded = false := by
  exact ⟨rfl, rfl⟩

end PolyMach
